import Mathlib

/-!
Verification of the retrieval-confidence decision engine of the Umeeda
chatbot (the function decide_reply in app.py).

The engine consumes a retrieval result — a ranked list of knowledge-base
entries, each a Python dict with string keys — and either answers directly
from the top entry, composes a grounded generation prompt, or reports that
nothing was found.  Entries are shallowly embedded as association lists of
(key, value) pairs where a value is a string or a number (scores); Python
dict lookup, truthiness, the or-chains, float() coercion and str.lower()
are modelled explicitly.  Operations that can raise in Python (float() on
a non-numeric string, .lower() on a float) are embedded in Except, so
decide_reply returns Except String Decision; the generation-service call
itself is an external collaborator and is out of scope — the engine's
output is the Decision, holding the composed prompt text where relevant.
-/

namespace Umeeda

/-- A Python dict value as it occurs in retrieval metadata: a string or a
number.  Scores are modelled as rationals. -/
inductive Value where
  | str (s : String)
  | num (q : ℚ)
deriving DecidableEq, Repr

/-- A retrieved entry: a Python dict with string keys, embedded as an
association list (first binding wins, as in a dict no key repeats). -/
abbrev Entry := List (String × Value)

/-- Python d.get(k): the value bound to k, or None (here: none). -/
def dictGet (r : Entry) (k : String) : Option Value :=
  (r.find? (fun p => p.1 == k)).map Prod.snd

/-- Python d.get(k, dflt). -/
def dictGetD (r : Entry) (k : String) (dflt : Value) : Value :=
  (dictGet r k).getD dflt

/-- Python truthiness of an optional value: None and the empty string and
the number 0 are falsy, everything else truthy. -/
def truthy : Option Value → Bool
  | none => false
  | some (.str s) => !s.isEmpty
  | some (.num q) => q != 0

/-- Python `a or b` on values (None embedded as none). -/
def pyOr (a b : Option Value) : Option Value :=
  if truthy a then a else b

/-- Python str() of a value, as used by f-string interpolation.  (Numeric
rendering differs cosmetically from CPython's float repr; every claim
below interpolates string values only.) -/
def valStr : Value → String
  | .str s => s
  | .num q => toString q

/-- str() of an optional value; Python renders None as "None". -/
def pyStr : Option Value → String
  | none => "None"
  | some v => valStr v

/-- Accumulate a digit string into a natural number. -/
def digitsNat (cs : List Char) : ℕ :=
  cs.foldl (fun n c => n * 10 + (c.toNat - 48)) 0

/-- Parse a plain decimal literal (optional sign, digits, optional
fractional part) the way Python's float() accepts "0.5", "-3.", ".25".
Other strings — in particular non-numeric ones like "abc" — fail.
(Exponent / inf / nan forms are omitted; no claim exercises them.) -/
def parseDecimal (s : String) : Option ℚ :=
  let cs := s.toList
  let signAndRest : ℚ × List Char :=
    match cs with
    | '-' :: t => (-1, t)
    | '+' :: t => (1, t)
    | _ => (1, cs)
  let sign := signAndRest.1
  let body := signAndRest.2
  let intPart := body.takeWhile (fun c => c.isDigit)
  let rest := body.dropWhile (fun c => c.isDigit)
  match rest with
  | [] =>
      if intPart.isEmpty then none
      else some (sign * (digitsNat intPart : ℚ))
  | '.' :: frac =>
      if frac.all (fun c => c.isDigit) && !(intPart.isEmpty && frac.isEmpty) then
        some (sign * ((digitsNat intPart : ℚ) +
          (digitsNat frac : ℚ) / ((10 : ℚ) ^ frac.length)))
      else none
  | _ => none

/-- Python float(v): a number passes through, a string is parsed; a
non-numeric string raises ValueError. -/
def pyFloat : Value → Except String ℚ
  | .num q => .ok q
  | .str s =>
      match parseDecimal s with
      | some q => .ok q
      | none => .error ("ValueError: could not convert string to float: " ++ s)

/-- ASCII-range lowercase of one character, the fragment of Python's
str.lower() exercised by the risk labels (which are ASCII). -/
def charLower (c : Char) : Char :=
  if 65 ≤ c.toNat ∧ c.toNat ≤ 90 then Char.ofNat (c.toNat + 32) else c

/-- Lowercase of a string (ASCII range). -/
def lowerStr (s : String) : String :=
  String.mk (s.data.map charLower)

/-- Python v.lower() — defined on strings only; on a number the attribute
access raises. -/
def pyLowerVal : Value → Except String String
  | .str s => .ok (lowerStr s)
  | .num _ => .error "AttributeError: number has no attribute lower"

/-- The decision produced per query (the spec's Decision type): a direct
cited answer, a composed grounded-generation prompt, or no result. -/
inductive Decision where
  | directAnswer (text : String)
  | groundedPrompt (text : String)
  | noResult (msg : String)
deriving DecidableEq, Repr

/-- The fixed culture/safety system preamble (CULTURE_SYSTEM_PROMPT). -/
def CULTURE_SYSTEM_PROMPT : String :=
  "\nYou are Umeeda, an assistant for users in Pakistan. Answer respectfully and according to Islamic and local cultural norms.\nFollow these rules:\n1. Use modest, family-friendly and respectful language.\n2. Avoid sexual/explicit content or instructions for harmful/illegal activities.\n3. Do not produce content that insults, dehumanizes, or encourages violence towards any person or group.\n4. If the user requests something that violates the rules above, politely refuse and optionally provide a safe alternative.\n5. Be concise and, when appropriate, reference Islamic values respectfully.\n"

/-- HIGH_CONFIDENCE_THRESHOLD = 0.78. -/
def HIGH_CONFIDENCE_THRESHOLD : ℚ := 78 / 100

/-- The urgency banner prepended to a direct answer when any retrieved
entry is flagged urgent. -/
def URGENT_BANNER : String :=
  "⚠️ This appears urgent. Please consult a qualified person.\n\n"

/-- The message returned when retrieval produced no candidates. -/
def NO_RESULT_MSG : String :=
  "I couldn't find a direct reference. Please rephrase or ask for more details."

/-- Line 71: short_answer = top.get("short_answer") or top.get("text") or "". -/
def norm_short (top : Entry) : Option Value :=
  pyOr (dictGet top "short_answer") (pyOr (dictGet top "text") (some (.str "")))

/-- Line 72: detailed_answer = top.get("detailed_answer") or top.get("text") or "". -/
def norm_detailed (top : Entry) : Option Value :=
  pyOr (dictGet top "detailed_answer") (pyOr (dictGet top "text") (some (.str "")))

/-- Line 73: entry_id = top.get("id") or top.get("chunk_id") or "unknown". -/
def norm_id (top : Entry) : Option Value :=
  pyOr (dictGet top "id") (pyOr (dictGet top "chunk_id") (some (.str "unknown")))

/-- Line 74: source = top.get("source", "unknown"). -/
def norm_source (top : Entry) : Value :=
  dictGetD top "source" (.str "unknown")

/-- Line 75: risk = top.get("risk_level", top.get("risk", "Info")). -/
def norm_risk (top : Entry) : Value :=
  dictGetD top "risk_level" (dictGetD top "risk" (.str "Info"))

/-- Line 68: score = float(top.get("score", 0.0)). -/
def topScoreE (top : Entry) : Except String ℚ :=
  pyFloat (dictGetD top "score" (.num 0))

/-- The score value as a rational when float() succeeds (its else branch
is never reached for well-formed entries). -/
def normScore (top : Entry) : ℚ :=
  match topScoreE top with
  | .ok q => q
  | .error _ => 0

/-- Line 81, one conjunct of the generator expression:
(r.get("risk_level","").lower()=="urgent") or (r.get("risk","").lower()=="urgent"),
with Python short-circuit evaluation and the possible AttributeError on a
numeric value. -/
def entryUrgent (r : Entry) : Except String Bool :=
  match pyLowerVal (dictGetD r "risk_level" (.str "")) with
  | .error e => .error e
  | .ok a =>
      if a == "urgent" then .ok true
      else
        match pyLowerVal (dictGetD r "risk" (.str "")) with
        | .error e => .error e
        | .ok b => .ok (b == "urgent")

/-- Line 81: any(... for r in results), short-circuiting. -/
def anyUrgent : List Entry → Except String Bool
  | [] => .ok false
  | r :: rs =>
      match entryUrgent r with
      | .error e => .error e
      | .ok true => .ok true
      | .ok false => anyUrgent rs

/-- The string value of a Value (identity on strings); used to state the
pure characterisation of the urgency test. -/
def strOf : Value → String
  | .str s => s
  | .num q => toString q

/-- Pure (error-free) counterpart of entryUrgent, equal to it on entries
whose risk fields are strings. -/
def entryUrgentB (r : Entry) : Bool :=
  (lowerStr (strOf (dictGetD r "risk_level" (.str ""))) == "urgent") ||
    (lowerStr (strOf (dictGetD r "risk" (.str ""))) == "urgent")

/-- Pure counterpart of anyUrgent. -/
def urgentFlag (results : List Entry) : Bool :=
  results.any entryUrgentB

/-- Lines 88-92, one iteration of the rag_context loop: the context-block
text contributed by one retrieved entry. -/
def ragLine (r : Entry) : String :=
  let r_src := dictGetD r "source" (.str "unknown")
  let r_id := dictGetD r "id" (dictGetD r "chunk_id" (.str "unknown"))
  let r_risk := dictGetD r "risk_level" (dictGetD r "risk" (.str "Info"))
  let r_detail := norm_detailed r
  "[" ++ valStr r_src ++ " | ID:" ++ valStr r_id ++ " | Risk:" ++
    valStr r_risk ++ "]\n" ++ pyStr r_detail ++ "\n\n"

/-- Lines 86-92: rag_context accumulated over results in rank order. -/
def ragFold : List Entry → String → String
  | [], acc => acc
  | r :: rs, acc => ragFold rs (acc ++ ragLine r)

/-- The source component of a grounded-reply citation item:
r.get('source','unknown') (line 102). -/
def citeSrc (r : Entry) : String :=
  valStr (dictGetD r "source" (.str "unknown"))

/-- The id component of a grounded-reply citation item:
r.get('id', r.get('chunk_id','?')) (line 102). -/
def citeId (r : Entry) : String :=
  valStr (dictGetD r "id" (dictGetD r "chunk_id" (.str "?")))

/-- The resolved (source, id) pair a citation item is built from. -/
def citePair (r : Entry) : String × String :=
  (citeSrc r, citeId r)

/-- One rendered citation item: f-string source (ID id). -/
def citeOf (r : Entry) : String :=
  citeSrc r ++ " (ID " ++ citeId r ++ ")"

/-- Code-point lexicographic comparison on character lists, the order
Python uses to compare strings. -/
def lexLe : List Char → List Char → Bool
  | [], _ => true
  | _ :: _, [] => false
  | a :: as, b :: bs =>
      if a.toNat < b.toNat then true
      else if b.toNat < a.toNat then false
      else lexLe as bs

/-- Python string comparison a less-or-equal b. -/
def strLe (a b : String) : Bool := lexLe a.toList b.toList

/-- Python's ≤ on strings as a proposition, for sorting. -/
def strLeP (a b : String) : Prop := strLe a b = true

instance : DecidableRel strLeP :=
  fun a b => inferInstanceAs (Decidable (strLe a b = true))

/-- Python sorted(set(l)): the distinct elements in ascending order under
Python's string comparison. -/
def sortedSet (l : List String) : List String :=
  List.insertionSort strLeP l.dedup

/-- Line 102: sources = ", ".join(sorted({f-string for r in results})). -/
def formatCitations (results : List Entry) : String :=
  String.intercalate ", " (sortedSet (results.map citeOf))

/-- The decision core of decide_reply (app.py lines 48-94): classify the
retrieval result and produce the Decision.  retrieval = none models
INDEX/METADATA being None; the generation call performed on a
GroundedPrompt is the external adapter and not part of the decision. -/
def decide_reply (query : String) (retrieval : Option (List Entry)) :
    Except String Decision :=
  match retrieval with
  | none =>
      .ok (.groundedPrompt (CULTURE_SYSTEM_PROMPT ++ "\n\nUser: " ++ query))
  | some [] => .ok (.noResult NO_RESULT_MSG)
  | some (top :: rest) =>
      match topScoreE top with
      | .error e => .error e
      | .ok score =>
          if HIGH_CONFIDENCE_THRESHOLD ≤ score ∧ truthy (norm_short top) = true then
            match anyUrgent (top :: rest) with
            | .error e => .error e
            | .ok urgent =>
                .ok (.directAnswer
                  ((if urgent then URGENT_BANNER else "") ++
                    pyStr (norm_short top) ++ "\n\nSource: [" ++
                    valStr (norm_source top) ++ " | ID:" ++
                    pyStr (norm_id top) ++ "]"))
          else
            .ok (.groundedPrompt
              (CULTURE_SYSTEM_PROMPT ++ "\n\nRetrieved knowledge:\n" ++
                ragFold (top :: rest) "" ++ "\nUser question:\n" ++ query ++
                "\n\nAnswer using the retrieved knowledge and cite sources."))

/-- Concatenation of a list of strings, used to state what the
rag_context accumulation loop produces. -/
def joinStrs : List String → String
  | [] => ""
  | s :: ss => s ++ joinStrs ss

/-- Well-formedness of one binding, matching the data model: the score
field is numeric, every other field is a string. -/
def wfPair : String × Value → Bool
  | (k, v) =>
      if k == "score" then
        match v with
        | .num _ => true
        | .str _ => false
      else
        match v with
        | .str _ => true
        | .num _ => false

/-- A well-formed entry: numeric score, string-valued everything else
(the shape the data model guarantees for retrieval results). -/
def wf (r : Entry) : Bool := r.all wfPair

def e1w : Entry := [("score", Value.num (78 / 100)), ("short_answer", Value.str "ok")]

def eC2 : Entry :=
  [("score", Value.num (9 / 10)), ("short_answer", Value.str "x"),
   ("risk_level", Value.str "Info"), ("risk", Value.str "Urgent")]

def e3 : Entry :=
  [("id", Value.str "A1"), ("source", Value.str "Quran-Tafsir"),
   ("short_answer", Value.str "Be patient."), ("risk_level", Value.str "Info"),
   ("score", Value.num (9 / 10))]

def eC4 : Entry := [("score", Value.str "abc"), ("text", Value.str "T")]

/-- Modelled from the spec's wording of field resolution: first non-empty
candidate wins, else the default. -/
def spec_resolve : List (Option String) → String → String
  | [], d => d
  | none :: cs, d => spec_resolve cs d
  | some s :: cs, d => if s = "" then spec_resolve cs d else s

/-- The string bound to a key, when it is a string. -/
def lookupStr (r : Entry) (k : String) : Option String :=
  match dictGet r k with
  | some (.str s) => some s
  | some (.num _) => none
  | none => none

/-- Modelled from the spec: id resolves first-non-empty from (id,
chunk_id, "unknown"). -/
def spec_id (r : Entry) : String :=
  spec_resolve [lookupStr r "id", lookupStr r "chunk_id"] "unknown"

/-- Modelled from the spec: shortAnswer resolves first-non-empty from
(short_answer, text, ""). -/
def spec_short (r : Entry) : String :=
  spec_resolve [lookupStr r "short_answer", lookupStr r "text"] ""

/-- Modelled from the spec: detailedAnswer resolves first-non-empty from
(detailed_answer, text, ""). -/
def spec_detailed (r : Entry) : String :=
  spec_resolve [lookupStr r "detailed_answer", lookupStr r "text"] ""

/-- Modelled from the spec: source resolves first-non-empty from (source,
"unknown"). -/
def spec_source (r : Entry) : String :=
  spec_resolve [lookupStr r "source"] "unknown"

/-- Modelled from the spec: riskLevel resolves first-non-empty from
(risk_level, risk, "Info"). -/
def spec_risk (r : Entry) : String :=
  spec_resolve [lookupStr r "risk_level", lookupStr r "risk"] "Info"

def eC5 : Entry :=
  [("source", Value.str ""), ("risk_level", Value.str ""),
   ("risk", Value.str "Urgent")]

def eC5w : Entry :=
  [("id", Value.str ""), ("chunk_id", Value.str "K1"), ("text", Value.str "T")]

/-- The rendered form of a resolved (source, id) citation pair. -/
def fmtPair (p : String × String) : String :=
  p.1 ++ " (ID " ++ p.2 ++ ")"

def eC6 : Entry := [("source", Value.str ""), ("id", Value.str "x")]

def eC7a : Entry := [("source", Value.str "a (ID x)"), ("id", Value.str "y")]

def eC7b : Entry := [("source", Value.str "a"), ("id", Value.str "x) (ID y")]

def l7a : List Entry :=
  [[("source", Value.str "B"), ("id", Value.str "1")],
   [("source", Value.str "A"), ("id", Value.str "2")]]

def l7b : List Entry :=
  [[("source", Value.str "A"), ("id", Value.str "2")],
   [("source", Value.str "B"), ("id", Value.str "1")],
   [("source", Value.str "B"), ("id", Value.str "1")]]

def e8a : Entry :=
  [("score", Value.num (4 / 10)), ("detailed_answer", Value.str "D1"),
   ("source", Value.str "S1"), ("id", Value.str "I1")]

def e8b : Entry :=
  [("detailed_answer", Value.str "D2"), ("source", Value.str "S2"),
   ("id", Value.str "I2")]

lemma dictGet_some {r : Entry} {k : String} {v : Value}
    (h : dictGet r k = some v) : ∃ p, p ∈ r ∧ p.1 = k ∧ p.2 = v := by
  unfold dictGet at h
  rcases Option.map_eq_some'.1 h with ⟨p, hp, hv⟩
  refine ⟨p, List.mem_of_find?_eq_some hp, ?_, hv⟩
  have h2 := List.find?_some hp
  simpa using h2

lemma wf_mem {r : Entry} (h : wf r = true) {p : String × Value}
    (hp : p ∈ r) : wfPair p = true := by
  unfold wf at h
  exact List.all_eq_true.1 h p hp

lemma wf_score_num {r : Entry} (h : wf r = true) {v : Value}
    (hv : dictGet r "score" = some v) : ∃ q, v = .num q := by
  obtain ⟨⟨k0, v0⟩, hmem, hk, hv2⟩ := dictGet_some hv
  dsimp at hk hv2
  subst hk
  subst hv2
  cases v0 with
  | num q => exact ⟨q, rfl⟩
  | str s =>
      exfalso
      have hw := wf_mem h hmem
      simp [wfPair] at hw

lemma wf_str {r : Entry} (h : wf r = true) {k : String} (hk : k ≠ "score")
    {v : Value} (hv : dictGet r k = some v) : ∃ s, v = .str s := by
  obtain ⟨⟨k0, v0⟩, hmem, hk0, hv2⟩ := dictGet_some hv
  dsimp at hk0 hv2
  subst hk0
  subst hv2
  cases v0 with
  | str s => exact ⟨s, rfl⟩
  | num q =>
      exfalso
      have hw := wf_mem h hmem
      simp [wfPair, hk] at hw

lemma topScoreE_eq {top : Entry} (h : wf top = true) :
    topScoreE top = .ok (normScore top) := by
  cases hv : dictGet top "score" with
  | none =>
      have h1 : topScoreE top = .ok 0 := by
        unfold topScoreE dictGetD
        rw [hv]
        rfl
      rw [normScore, h1]
  | some v =>
      obtain ⟨q, rfl⟩ := wf_score_num h hv
      have h1 : topScoreE top = .ok q := by
        unfold topScoreE dictGetD
        rw [hv]
        rfl
      rw [normScore, h1]

lemma pyLower_field {r : Entry} (h : wf r = true) {k : String}
    (hk : k ≠ "score") :
    pyLowerVal (dictGetD r k (.str "")) =
      .ok (lowerStr (strOf (dictGetD r k (.str "")))) := by
  unfold dictGetD
  cases hv : dictGet r k with
  | none => rfl
  | some v =>
      obtain ⟨s, rfl⟩ := wf_str h hk hv
      rfl

lemma entryUrgent_eq {r : Entry} (h : wf r = true) :
    entryUrgent r = .ok (entryUrgentB r) := by
  unfold entryUrgent entryUrgentB
  rw [pyLower_field h (show "risk_level" ≠ "score" by decide),
      pyLower_field h (show "risk" ≠ "score" by decide)]
  by_cases h1 : lowerStr (strOf (dictGetD r "risk_level" (.str ""))) == "urgent"
  · simp [h1]
  · simp only [Bool.not_eq_true] at h1
    simp [h1]

lemma anyUrgent_eq : ∀ {l : List Entry}, l.all wf = true →
    anyUrgent l = .ok (urgentFlag l)
  | [], _ => rfl
  | r :: rs, h => by
      rw [List.all_cons, Bool.and_eq_true] at h
      obtain ⟨hr, hrs⟩ := h
      unfold anyUrgent
      rw [entryUrgent_eq hr]
      cases hu : entryUrgentB r with
      | true => simp [urgentFlag, List.any_cons, hu]
      | false =>
          rw [anyUrgent_eq hrs]
          simp [urgentFlag, List.any_cons, hu]

lemma decide_reply_high (q : String) (top : Entry) (rest : List Entry)
    (hw : (top :: rest).all wf = true)
    (hs : HIGH_CONFIDENCE_THRESHOLD ≤ normScore top)
    (hsh : truthy (norm_short top) = true) :
    decide_reply q (some (top :: rest)) = .ok (.directAnswer
      ((if urgentFlag (top :: rest) then URGENT_BANNER else "") ++
        pyStr (norm_short top) ++ "\n\nSource: [" ++ valStr (norm_source top) ++
        " | ID:" ++ pyStr (norm_id top) ++ "]")) := by
  have hwtop : wf top = true := by
    have h1 := hw
    rw [List.all_cons, Bool.and_eq_true] at h1
    exact h1.1
  have hsc := topScoreE_eq hwtop
  have hau := anyUrgent_eq hw
  simp only [decide_reply]
  split
  · next e he => rw [hsc] at he; cases he
  · next score hscore =>
      rw [hsc] at hscore
      injection hscore with hscore
      subst hscore
      rw [if_pos ⟨hs, hsh⟩]
      split
      · next e he => rw [hau] at he; cases he
      · next u hu =>
          rw [hau] at hu
          injection hu with hu
          subst hu
          rfl

lemma decide_reply_low (q : String) (top : Entry) (rest : List Entry)
    (hw : wf top = true)
    (hlow : ¬(HIGH_CONFIDENCE_THRESHOLD ≤ normScore top ∧
      truthy (norm_short top) = true)) :
    decide_reply q (some (top :: rest)) = .ok (.groundedPrompt
      (CULTURE_SYSTEM_PROMPT ++ "\n\nRetrieved knowledge:\n" ++
        ragFold (top :: rest) "" ++ "\nUser question:\n" ++ q ++
        "\n\nAnswer using the retrieved knowledge and cite sources.")) := by
  have hsc := topScoreE_eq hw
  simp only [decide_reply]
  split
  · next e he => rw [hsc] at he; cases he
  · next score hscore =>
      rw [hsc] at hscore
      injection hscore with hscore
      subst hscore
      rw [if_neg hlow]

lemma ragFold_eq : ∀ (l : List Entry) (acc : String),
    ragFold l acc = acc ++ joinStrs (l.map ragLine)
  | [], acc => by
      show acc = acc ++ ""
      have : (acc ++ "").data = acc.data := by
        simp [String.data_append]
      exact (String.ext this).symm
  | r :: rs, acc => by
      show ragFold rs (acc ++ ragLine r) = acc ++ joinStrs ((r :: rs).map ragLine)
      rw [ragFold_eq rs (acc ++ ragLine r)]
      show acc ++ ragLine r ++ joinStrs (rs.map ragLine) = _
      rw [String.append_assoc]
      rfl

lemma char_toNat_inj {a b : Char} (h : a.toNat = b.toNat) : a = b := by
  have ha := Char.ofNat_toNat a
  have hb := Char.ofNat_toNat b
  rw [← ha, ← hb, h]

lemma lexLe_total : ∀ a b : List Char, lexLe a b = true ∨ lexLe b a = true
  | [], _ => Or.inl rfl
  | _ :: _, [] => Or.inr rfl
  | a :: as, b :: bs => by
      by_cases h1 : a.toNat < b.toNat
      · left; simp [lexLe, h1]
      · by_cases h2 : b.toNat < a.toNat
        · right; simp [lexLe, h2]
        · rcases lexLe_total as bs with h | h
          · left; simp [lexLe, h1, h2, h]
          · right; simp [lexLe, h1, h2, h]

lemma lexLe_trans : ∀ a b c : List Char,
    lexLe a b = true → lexLe b c = true → lexLe a c = true
  | [], _, _ => fun _ _ => rfl
  | _ :: _, [], _ => fun h _ => by simp [lexLe] at h
  | _ :: _, _ :: _, [] => fun _ h => by simp [lexLe] at h
  | a :: as, b :: bs, c :: cs => fun h1 h2 => by
      simp only [lexLe] at h1 h2 ⊢
      by_cases hab : a.toNat < b.toNat
      · by_cases hbc : b.toNat < c.toNat
        · have hac : a.toNat < c.toNat := by omega
          simp [hac]
        · by_cases hcb : c.toNat < b.toNat
          · simp [hbc, hcb] at h2
          · have hac : a.toNat < c.toNat := by omega
            simp [hac]
      · by_cases hba : b.toNat < a.toNat
        · simp [hab, hba] at h1
        · by_cases hbc : b.toNat < c.toNat
          · have hac : a.toNat < c.toNat := by omega
            simp [hac]
          · by_cases hcb : c.toNat < b.toNat
            · simp [hbc, hcb] at h2
            · have h3 : ¬a.toNat < c.toNat := by omega
              have h4 : ¬c.toNat < a.toNat := by omega
              simp [hab, hba] at h1
              simp [hbc, hcb] at h2
              simp [h3, h4]
              exact lexLe_trans as bs cs h1 h2

lemma lexLe_antisymm : ∀ a b : List Char,
    lexLe a b = true → lexLe b a = true → a = b
  | [], [] => fun _ _ => rfl
  | [], _ :: _ => fun _ h => by simp [lexLe] at h
  | _ :: _, [] => fun h _ => by simp [lexLe] at h
  | a :: as, b :: bs => fun h1 h2 => by
      simp only [lexLe] at h1 h2
      by_cases hab : a.toNat < b.toNat
      · have hba : ¬b.toNat < a.toNat := by omega
        simp [hba, hab] at h2
      · by_cases hba : b.toNat < a.toNat
        · simp [hab, hba] at h1
        · simp [hab, hba] at h1
          simp [hba, hab] at h2
          have hc : a = b := char_toNat_inj (by omega)
          rw [hc, lexLe_antisymm as bs h1 h2]

instance : IsTotal String strLeP :=
  ⟨fun a b => lexLe_total a.toList b.toList⟩

instance : IsTrans String strLeP :=
  ⟨fun a b c => lexLe_trans a.toList b.toList c.toList⟩

instance : IsAntisymm String strLeP :=
  ⟨fun a b h1 h2 => String.ext (lexLe_antisymm a.toList b.toList h1 h2)⟩

lemma sortedSet_eq_of_mem {l1 l2 : List String}
    (h : ∀ s, s ∈ l1 ↔ s ∈ l2) : sortedSet l1 = sortedSet l2 := by
  have hperm : List.Perm l1.dedup l2.dedup :=
    (List.perm_ext_iff_of_nodup (List.nodup_dedup l1) (List.nodup_dedup l2)).2
      (fun a => by simp only [List.mem_dedup]; exact h a)
  have p1 : List.Perm (sortedSet l1) (sortedSet l2) :=
    ((List.perm_insertionSort strLeP l1.dedup).trans hperm).trans
      (List.perm_insertionSort strLeP l2.dedup).symm
  exact List.eq_of_perm_of_sorted p1
    (List.sorted_insertionSort strLeP l1.dedup)
    (List.sorted_insertionSort strLeP l2.dedup)

lemma append_ne_empty_right (a b : String) (hb : b.length ≠ 0) :
    a ++ b ≠ "" := by
  intro h
  have h2 := congrArg String.length h
  rw [String.length_append] at h2
  simp [String.length_empty] at h2
  omega

lemma isEmpty_false_of_ne {s : String} (h : s ≠ "") : s.isEmpty = false := by
  cases he : s.isEmpty
  · rfl
  · exact absurd ((String.isEmpty_iff s).mp he) h

/-- Claim C1: with at least one retrieved entry, the reply is a direct
answer exactly when the top score meets the threshold (boundary included)
and the resolved short answer is non-empty; otherwise it is a grounded
prompt, and a direct answer is never empty. -/
theorem c1_decision_dichotomy (q : String) (top : Entry) (rest : List Entry)
    (hw : (top :: rest).all wf = true) :
    ((HIGH_CONFIDENCE_THRESHOLD ≤ normScore top ∧ truthy (norm_short top) = true) →
      ∃ t, decide_reply q (some (top :: rest)) = .ok (.directAnswer t) ∧ t ≠ "") ∧
    (¬(HIGH_CONFIDENCE_THRESHOLD ≤ normScore top ∧ truthy (norm_short top) = true) →
      ∃ t, decide_reply q (some (top :: rest)) = .ok (.groundedPrompt t)) := by
  constructor
  · rintro ⟨hs, hsh⟩
    refine ⟨_, decide_reply_high q top rest hw hs hsh, ?_⟩
    exact append_ne_empty_right _ "]" (by decide)
  · intro hlow
    have hwtop : wf top = true := by
      have h1 := hw
      rw [List.all_cons, Bool.and_eq_true] at h1
      exact h1.1
    exact ⟨_, decide_reply_low q top rest hwtop hlow⟩

/-- Witness for C1 at the exact boundary score = threshold. -/
theorem c1_witness :
    ([e1w].all wf = true) ∧
    (∃ t, decide_reply "q" (some [e1w]) = .ok (.directAnswer t) ∧ t ≠ "") :=
  ⟨by decide, (c1_decision_dichotomy "q" e1w [] (by decide)).1 ⟨le_refl _, by decide⟩⟩

/-- Counterexample to C2: an entry whose resolved riskLevel is "Info"
(not urgent) still triggers the urgency banner, because the code checks
the raw risk field independently of the risk_level resolution. -/
theorem c2_counterexample :
    decide_reply "q" (some [eC2]) =
      .ok (.directAnswer (URGENT_BANNER ++ "x\n\nSource: [unknown | ID:unknown]")) ∧
    lowerStr (valStr (norm_risk eC2)) ≠ "urgent" := by
  constructor
  · have h := decide_reply_high "q" eC2 [] (by decide)
      (by show (78 : ℚ) / 100 ≤ 9 / 10; norm_num) (by decide)
    exact h.trans (by rfl)
  · decide

/-- Amended C2: in a direct answer the urgency banner appears iff at least
one retrieved entry has raw field risk_level or raw field risk (absent
read as "") case-insensitively equal to "urgent"; the normalized riskLevel
resolution is not what is consulted. -/
theorem c2_banner_amended (q : String) (top : Entry) (rest : List Entry)
    (hw : (top :: rest).all wf = true)
    (hs : HIGH_CONFIDENCE_THRESHOLD ≤ normScore top)
    (hsh : truthy (norm_short top) = true) :
    decide_reply q (some (top :: rest)) = .ok (.directAnswer
      ((if urgentFlag (top :: rest) then URGENT_BANNER else "") ++
        pyStr (norm_short top) ++ "\n\nSource: [" ++ valStr (norm_source top) ++
        " | ID:" ++ pyStr (norm_id top) ++ "]")) ∧
    (urgentFlag (top :: rest) = true ↔ ∃ r ∈ top :: rest,
      (lowerStr (strOf (dictGetD r "risk_level" (.str ""))) = "urgent" ∨
        lowerStr (strOf (dictGetD r "risk" (.str ""))) = "urgent")) := by
  refine ⟨decide_reply_high q top rest hw hs hsh, ?_⟩
  simp [urgentFlag, List.any_eq_true, entryUrgentB]

/-- Witness for the amended C2. -/
theorem c2_witness :
    ([eC2].all wf = true) ∧
    decide_reply "q" (some [eC2]) =
      .ok (.directAnswer (URGENT_BANNER ++ "x\n\nSource: [unknown | ID:unknown]")) := by
  refine ⟨by decide, ?_⟩
  have h := (c2_banner_amended "q" eC2 [] (by decide)
    (by show (78 : ℚ) / 100 ≤ 9 / 10; norm_num) (by decide)).1
  exact h.trans (by rfl)

/-- Claim C3: in the high-confidence branch with no urgent entry, the
direct answer is exactly the resolved short answer followed by the
citation line for the top entry's source and id. -/
theorem c3_direct_answer_text (q : String) (top : Entry) (rest : List Entry)
    (hw : (top :: rest).all wf = true)
    (hs : HIGH_CONFIDENCE_THRESHOLD ≤ normScore top)
    (hsh : truthy (norm_short top) = true)
    (hnu : urgentFlag (top :: rest) = false) :
    decide_reply q (some (top :: rest)) = .ok (.directAnswer
      (pyStr (norm_short top) ++ "\n\nSource: [" ++ valStr (norm_source top) ++
        " | ID:" ++ pyStr (norm_id top) ++ "]")) := by
  have h := decide_reply_high q top rest hw hs hsh
  rw [hnu] at h
  simpa using h

/-- Witness for C3: the end-to-end example from the specification. -/
theorem c3_witness :
    decide_reply "Why?" (some [e3]) =
      .ok (.directAnswer "Be patient.\n\nSource: [Quran-Tafsir | ID:A1]") := by
  have h := c3_direct_answer_text "Why?" e3 [] (by decide)
    (by show (78 : ℚ) / 100 ≤ 9 / 10; norm_num) (by decide) (by decide)
  exact h.trans (by rfl)

/-- Counterexample to C4: a non-numeric score string makes the engine
raise (float() ValueError) instead of treating the score as 0.0. -/
theorem c4_counterexample :
    decide_reply "q" (some [eC4]) =
      .error "ValueError: could not convert string to float: abc" := by rfl

/-- Amended C4: an absent score is treated as 0.0 and the engine proceeds
to the low-confidence branch without error; a non-numeric score string,
however, raises ValueError. -/
theorem c4_absent_score_amended (q : String) (top : Entry) (rest : List Entry)
    (hw : (top :: rest).all wf = true)
    (hns : dictGet top "score" = none) :
    decide_reply q (some (top :: rest)) = .ok (.groundedPrompt
      (CULTURE_SYSTEM_PROMPT ++ "\n\nRetrieved knowledge:\n" ++
        ragFold (top :: rest) "" ++ "\nUser question:\n" ++ q ++
        "\n\nAnswer using the retrieved knowledge and cite sources.")) := by
  have hwtop : wf top = true := by
    have h1 := hw
    rw [List.all_cons, Bool.and_eq_true] at h1
    exact h1.1
  have hscore : normScore top = 0 := by
    unfold normScore topScoreE dictGetD
    rw [hns]
    rfl
  apply decide_reply_low q top rest hwtop
  rintro ⟨h1, _⟩
  rw [hscore] at h1
  norm_num [HIGH_CONFIDENCE_THRESHOLD] at h1

/-- Witness for the amended C4: an entry with no score at all is answered
through the grounded prompt, with the context block built from the text
field, and no error is raised. -/
theorem c4_witness :
    decide_reply "q" (some [[("text", Value.str "T")]]) = .ok (.groundedPrompt
      (CULTURE_SYSTEM_PROMPT ++ "\n\nRetrieved knowledge:\n" ++
        ragFold [[("text", Value.str "T")]] "" ++ "\nUser question:\n" ++ "q" ++
        "\n\nAnswer using the retrieved knowledge and cite sources.")) ∧
    ragFold [[("text", Value.str "T")]] "" =
      "[unknown | ID:unknown | Risk:Info]\nT\n\n" :=
  ⟨c4_absent_score_amended "q" [("text", Value.str "T")] [] (by decide) (by rfl),
   by rfl⟩

/-- Claim C9: with no index loaded, the decision is a grounded prompt made
of exactly the fixed culture/safety preamble and the query — no knowledge
context block. -/
theorem c9_null_retrieval (q : String) :
    decide_reply q none =
      .ok (.groundedPrompt (CULTURE_SYSTEM_PROMPT ++ "\n\nUser: " ++ q)) := rfl

/-- Claim C10: when retrieval runs but returns no candidates, the decision
is NoResult carrying the user-visible rephrase message, never a direct
answer or a grounded prompt. -/
theorem c10_empty_retrieval (q : String) :
    decide_reply q (some []) = .ok (.noResult NO_RESULT_MSG) ∧
    NO_RESULT_MSG =
      "I couldn't find a direct reference. Please rephrase or ask for more details." :=
  ⟨rfl, rfl⟩

lemma pyOr_none_left (b : Option Value) : pyOr none b = b := rfl

lemma pyOr_str_left (s : String) (b : Option Value) :
    pyOr (some (.str s)) b = if s = "" then b else some (.str s) := by
  by_cases hs : s = ""
  · subst hs
    have h1 : ("" : String).isEmpty = true := rfl
    simp [pyOr, truthy, h1]
  · simp [pyOr, truthy, isEmpty_false_of_ne hs, hs]

lemma wf_get_cases3 {r : Entry} (h : wf r = true) (k : String)
    (hk : k ≠ "score") :
    dictGet r k = none ∨ dictGet r k = some (.str "") ∨
      ∃ s, dictGet r k = some (.str s) ∧ s ≠ "" := by
  cases hv : dictGet r k with
  | none => exact Or.inl rfl
  | some v =>
      obtain ⟨s, rfl⟩ := wf_str h hk hv
      by_cases hs : s = ""
      · subst hs
        exact Or.inr (Or.inl rfl)
      · exact Or.inr (Or.inr ⟨s, rfl, hs⟩)

lemma norm_id_spec {r : Entry} (h : wf r = true) :
    pyStr (norm_id r) = spec_id r := by
  unfold norm_id spec_id
  rcases wf_get_cases3 h "id" (by decide) with hid | hid | ⟨s, hid, hs⟩ <;>
    rcases wf_get_cases3 h "chunk_id" (by decide) with hch | hch | ⟨t, hch, ht⟩ <;>
      simp_all [pyOr_str_left, pyOr_none_left, lookupStr, spec_resolve,
        pyStr, valStr]

lemma norm_short_spec {r : Entry} (h : wf r = true) :
    pyStr (norm_short r) = spec_short r := by
  unfold norm_short spec_short
  rcases wf_get_cases3 h "short_answer" (by decide) with hid | hid | ⟨s, hid, hs⟩ <;>
    rcases wf_get_cases3 h "text" (by decide) with hch | hch | ⟨t, hch, ht⟩ <;>
      simp_all [pyOr_str_left, pyOr_none_left, lookupStr, spec_resolve,
        pyStr, valStr]

lemma norm_detailed_spec {r : Entry} (h : wf r = true) :
    pyStr (norm_detailed r) = spec_detailed r := by
  unfold norm_detailed spec_detailed
  rcases wf_get_cases3 h "detailed_answer" (by decide) with hid | hid | ⟨s, hid, hs⟩ <;>
    rcases wf_get_cases3 h "text" (by decide) with hch | hch | ⟨t, hch, ht⟩ <;>
      simp_all [pyOr_str_left, pyOr_none_left, lookupStr, spec_resolve,
        pyStr, valStr]

/-- Amended C5: normalization is total, and id, shortAnswer and
detailedAnswer do resolve first-non-empty as claimed; but source and
riskLevel resolve by key presence — a present-but-empty value is kept, it
does not fall through to the next candidate. -/
theorem c5_normalization_amended (r : Entry) (hw : wf r = true) :
    pyStr (norm_id r) = spec_id r ∧
    pyStr (norm_short r) = spec_short r ∧
    pyStr (norm_detailed r) = spec_detailed r ∧
    (dictGet r "source" = none → valStr (norm_source r) = "unknown") ∧
    (∀ v, dictGet r "source" = some v → norm_source r = v) ∧
    (dictGet r "risk_level" = none → dictGet r "risk" = none →
      valStr (norm_risk r) = "Info") ∧
    (∀ v, dictGet r "risk_level" = some v → norm_risk r = v) ∧
    (∀ v, dictGet r "risk_level" = none → dictGet r "risk" = some v →
      norm_risk r = v) := by
  refine ⟨norm_id_spec hw, norm_short_spec hw, norm_detailed_spec hw,
    ?_, ?_, ?_, ?_, ?_⟩
  · intro h
    unfold norm_source dictGetD
    rw [h]
    rfl
  · intro v h
    unfold norm_source dictGetD
    rw [h]
    rfl
  · intro h1 h2
    unfold norm_risk dictGetD
    rw [h1, h2]
    rfl
  · intro v h
    unfold norm_risk dictGetD
    rw [h]
    rfl
  · intro v h1 h2
    unfold norm_risk dictGetD
    rw [h1, h2]
    rfl

/-- Counterexample to C5: a present-but-empty source (resp. risk_level)
does not fall through — the code keeps the empty string where the claimed
first-non-empty resolution would give "unknown" (resp. "Urgent"). -/
theorem c5_counterexample :
    valStr (norm_source eC5) = "" ∧ spec_source eC5 = "unknown" ∧
    valStr (norm_risk eC5) = "" ∧ spec_risk eC5 = "Urgent" := by decide

/-- Witness for the amended C5: an empty id falls through to chunk_id. -/
theorem c5_witness :
    (wf eC5w = true) ∧ pyStr (norm_id eC5w) = spec_id eC5w ∧
      spec_id eC5w = "K1" :=
  ⟨by decide, (c5_normalization_amended eC5w (by decide)).1, by decide⟩

lemma citeOf_eq_fmtPair (r : Entry) : citeOf r = fmtPair (citePair r) := rfl

/-- Counterexample to C6: a present-but-empty source propagates an empty
source string into the grounded reply's user-visible citation item. -/
theorem c6_counterexample :
    formatCitations [eC6] = " (ID x)" ∧ citeSrc eC6 = "" := by decide

/-- Amended C6: citation defaults are substituted only for absent keys —
an absent source renders "unknown", an absent id and chunk_id render "?"
in the grounded sources list — and the direct-answer citation id is always
non-empty; a present-but-empty source or id, however, is propagated as the
empty string. -/
theorem c6_citation_amended (r : Entry) (hw : wf r = true) :
    (dictGet r "source" = none → citeSrc r = "unknown") ∧
    (dictGet r "id" = none → dictGet r "chunk_id" = none → citeId r = "?") ∧
    pyStr (norm_id r) ≠ "" := by
  refine ⟨?_, ?_, ?_⟩
  · intro h
    unfold citeSrc dictGetD
    rw [h]
    rfl
  · intro h1 h2
    unfold citeId dictGetD
    rw [h1, h2]
    rfl
  · unfold norm_id
    rcases wf_get_cases3 hw "id" (by decide) with hid | hid | ⟨s, hid, hs⟩ <;>
      rcases wf_get_cases3 hw "chunk_id" (by decide) with hch | hch | ⟨t, hch, ht⟩ <;>
        simp_all [pyOr_str_left, pyOr_none_left, pyStr, valStr]

/-- Witness for the amended C6 at the empty entry. -/
theorem c6_witness :
    (wf ([] : Entry) = true) ∧ citeSrc [] = "unknown" ∧ citeId [] = "?" ∧
      pyStr (norm_id []) ≠ "" :=
  ⟨by decide, (c6_citation_amended [] (by decide)).1 rfl,
   ((c6_citation_amended [] (by decide)).2).1 rfl rfl,
   ((c6_citation_amended [] (by decide)).2).2⟩

/-- Counterexample to C7: two entries with distinct resolved (source, id)
pairs render to the same citation string, so the sources list holds one
item where the claim promises one item per distinct pair. -/
theorem c7_counterexample :
    citePair eC7a ≠ citePair eC7b ∧
    formatCitations [eC7a, eC7b] = citeOf eC7a ∧
    formatCitations [eC7a, eC7b] = "a (ID x) (ID y)" := by decide

/-- Amended C7: the grounded sources list is the deduplicated (one item
per distinct rendered citation string), lexicographically sorted,
comma-joined list of source (ID id) strings, and it is deterministic:
inputs with the same set of resolved (source, id) pairs, in any order and
multiplicity, produce the identical string. -/
theorem c7_citations_amended (l1 l2 : List Entry)
    (h : ((l1.map citePair).all (fun p => p ∈ l2.map citePair) &&
          (l2.map citePair).all (fun p => p ∈ l1.map citePair)) = true) :
    formatCitations l1 = formatCitations l2 ∧
    List.Sorted strLeP (sortedSet (l1.map citeOf)) ∧
    (sortedSet (l1.map citeOf)).Nodup := by
  rw [Bool.and_eq_true, List.all_eq_true, List.all_eq_true] at h
  obtain ⟨h1, h2⟩ := h
  refine ⟨?_, List.sorted_insertionSort strLeP ((l1.map citeOf).dedup),
    ((List.perm_insertionSort strLeP ((l1.map citeOf).dedup)).nodup_iff).2
      (List.nodup_dedup _)⟩
  unfold formatCitations
  congr 1
  apply sortedSet_eq_of_mem
  intro s
  constructor
  · intro hmem
    obtain ⟨r, hr, rfl⟩ := List.mem_map.1 hmem
    have hp : citePair r ∈ l2.map citePair := by
      have := h1 (citePair r) (List.mem_map_of_mem citePair hr)
      simpa using this
    obtain ⟨r2, hr2, hpr⟩ := List.mem_map.1 hp
    refine List.mem_map.2 ⟨r2, hr2, ?_⟩
    rw [citeOf_eq_fmtPair, citeOf_eq_fmtPair, hpr]
  · intro hmem
    obtain ⟨r, hr, rfl⟩ := List.mem_map.1 hmem
    have hp : citePair r ∈ l1.map citePair := by
      have := h2 (citePair r) (List.mem_map_of_mem citePair hr)
      simpa using this
    obtain ⟨r2, hr2, hpr⟩ := List.mem_map.1 hp
    refine List.mem_map.2 ⟨r2, hr2, ?_⟩
    rw [citeOf_eq_fmtPair, citeOf_eq_fmtPair, hpr]

/-- Witness for the amended C7: reordered and duplicated inputs with the
same pair set produce the identical sorted sources string. -/
theorem c7_witness :
    (((l7a.map citePair).all (fun p => p ∈ l7b.map citePair) &&
      (l7b.map citePair).all (fun p => p ∈ l7a.map citePair)) = true) ∧
    formatCitations l7a = formatCitations l7b ∧
    formatCitations l7a = "A (ID 2), B (ID 1)" :=
  ⟨by decide, (c7_citations_amended l7a l7b (by decide)).1, by decide⟩

/-- Claim C8: in the low-confidence branch the grounded prompt's context
block lists every retrieved entry in retrieval-rank order, each rendered
as its bracketed header followed by its detailed answer and a blank line;
permuting the input permutes the context lines identically. -/
theorem c8_context_order (q : String) (top : Entry) (rest : List Entry)
    (hw : (top :: rest).all wf = true)
    (hlow : ¬(HIGH_CONFIDENCE_THRESHOLD ≤ normScore top ∧
      truthy (norm_short top) = true)) :
    decide_reply q (some (top :: rest)) = .ok (.groundedPrompt
      (CULTURE_SYSTEM_PROMPT ++ "\n\nRetrieved knowledge:\n" ++
        joinStrs ((top :: rest).map ragLine) ++ "\nUser question:\n" ++ q ++
        "\n\nAnswer using the retrieved knowledge and cite sources.")) ∧
    (∀ r : Entry, ragLine r =
      "[" ++ valStr (dictGetD r "source" (.str "unknown")) ++ " | ID:" ++
        valStr (dictGetD r "id" (dictGetD r "chunk_id" (.str "unknown"))) ++
        " | Risk:" ++
        valStr (dictGetD r "risk_level" (dictGetD r "risk" (.str "Info"))) ++
        "]\n" ++ pyStr (norm_detailed r) ++ "\n\n") ∧
    (∀ l1 l2 : List Entry, List.Perm l1 l2 →
      List.Perm (l1.map ragLine) (l2.map ragLine)) := by
  refine ⟨?_, fun r => rfl, fun l1 l2 hp => hp.map ragLine⟩
  have hwtop : wf top = true := by
    have h1 := hw
    rw [List.all_cons, Bool.and_eq_true] at h1
    exact h1.1
  have h := decide_reply_low q top rest hwtop hlow
  rw [ragFold_eq] at h
  simpa using h

/-- Witness for C8: a below-threshold top entry yields the grounded prompt
with both context lines in rank order. -/
theorem c8_witness :
    (([e8a, e8b] : List Entry).all wf = true) ∧
    decide_reply "q" (some [e8a, e8b]) = .ok (.groundedPrompt
      (CULTURE_SYSTEM_PROMPT ++ "\n\nRetrieved knowledge:\n" ++
        "[S1 | ID:I1 | Risk:Info]\nD1\n\n[S2 | ID:I2 | Risk:Info]\nD2\n\n" ++
        "\nUser question:\n" ++ "q" ++
        "\n\nAnswer using the retrieved knowledge and cite sources.")) := by
  have hlow : ¬(HIGH_CONFIDENCE_THRESHOLD ≤ normScore e8a ∧
      truthy (norm_short e8a) = true) := by
    rintro ⟨h1, _⟩
    have h2 : (78 : ℚ) / 100 ≤ 4 / 10 := h1
    norm_num at h2
  have h := (c8_context_order "q" e8a [e8b] (by decide) hlow).1
  exact ⟨by decide, h.trans (by rfl)⟩

end Umeeda
